import Mathlib

/-!
# Background remover: services, pipeline and progress channel

A shallow embedding of `src/services/removeBgService.js`,
`src/services/aiBackgroundService.js` and `src/server.js`.

* JavaScript strings are sequences of UTF-16 code units (`JSString`), so that
  unpaired surrogates, on which `encodeURIComponent` throws, are representable.
* `async` functions are run to completion in sequence: a computation `M α`
  maps the trace of effects so far to an outcome (a value or a thrown error)
  and the extended trace.
* Everything outside the program (the three HTTP providers, `Math.random`,
  `Date.now`, `new Date().toISOString()`) is answered by a `World`, whose
  answers may depend on the whole history.
* The trace also records the entry of every modelled function (`Effect.invoke`),
  which is what "a stage is invoked" refers to.  `console.log` and
  `console.error` are not traced.
* A provider response is typed by the field the program reads from it; a
  rejected call (network error, non-2xx status) carries its `message`.
* A route is the multer middleware `upload.single('photo')` followed by the
  handler.  Multer is a library: what it does with a request that is not
  multipart, or that is multipart without a boundary, is modelled; what it
  does with any other multipart body is an answer of the world.  A request
  multer rejects is answered by the default error handler of Express.
* `Math.random()` ranges over the binary64 numbers in `[0, 1)`, and
  `Math.floor(r * 5)` is computed with binary64 rounding.
* Timers registered together fire by increasing delay; an exception thrown in
  a timer callback is uncaught and ends the process.
-/

namespace BackgroundRemover

/-! ## JavaScript strings -/

/-- A JavaScript string: its UTF-16 code units. -/
abbrev JSString := List Nat

/-- A Node.js `Buffer`: its bytes. -/
abbrev Buffer := List Nat

/-- The UTF-16 code units of one Unicode scalar value. -/
def utf16 (c : Char) : List Nat :=
  if c.toNat < 0x10000 then [c.toNat]
  else [0xD800 + (c.toNat - 0x10000) / 0x400, 0xDC00 + (c.toNat - 0x10000) % 0x400]

/-- The JavaScript string written by a string literal of the source. -/
def js (s : String) : JSString := s.toList.flatMap utf16

/-- A thrown JavaScript error object: its `name` and its `message`. -/
structure JSError where
  name : JSString
  message : JSString
deriving DecidableEq, Repr

/-- The error built by `new Error(message)`. -/
def mkError (message : JSString) : JSError := ⟨js "Error", message⟩

/-- Digits of `n` in base ten, least significant first; `fuel` bounds the number of digits. -/
def decimalDigitsRev : Nat → Nat → List Nat
  | 0, _ => []
  | fuel + 1, n => if n < 10 then [48 + n] else (48 + n % 10) :: decimalDigitsRev fuel (n / 10)

/-- Number-to-string conversion of a non-negative integer (as in a template literal). -/
def natToString (n : Nat) : JSString := (decimalDigitsRev (n + 1) n).reverse

/-- Number-to-string conversion of an integer below 10^21 in absolute value. -/
def intToString : Int → JSString
  | Int.ofNat n => natToString n
  | Int.negSucc n => js "-" ++ natToString (n + 1)

/-- The number written by decimal digits given least significant first. -/
def decimalValueRev : List Nat → Nat
  | [] => 0
  | d :: ds => (d - 48) + 10 * decimalValueRev ds

/-! ## encodeURIComponent -/

/-- The characters `encodeURIComponent` leaves alone: letters, digits and `-_.!~*'()`. -/
def isUnreserved (c : Nat) : Bool :=
  (65 ≤ c && c ≤ 90) || (97 ≤ c && c ≤ 122) || (48 ≤ c && c ≤ 57) ||
  c == 45 || c == 95 || c == 46 || c == 33 || c == 126 || c == 42 || c == 39 || c == 40 || c == 41

/-- A leading (high) surrogate code unit. -/
def isLeadSurrogate (c : Nat) : Bool := 0xD800 ≤ c && c ≤ 0xDBFF

/-- A trailing (low) surrogate code unit. -/
def isTrailSurrogate (c : Nat) : Bool := 0xDC00 ≤ c && c ≤ 0xDFFF

/-- An upper-case hexadecimal digit. -/
def hexDigit (n : Nat) : Nat := if n < 10 then 48 + n else 55 + n

/-- The escape `%XX` of one byte. -/
def percentByte (b : Nat) : JSString := [37, hexDigit (b / 16), hexDigit (b % 16)]

/-- The UTF-8 encoding of a code point. -/
def utf8Bytes (cp : Nat) : List Nat :=
  if cp < 0x80 then [cp]
  else if cp < 0x800 then [0xC0 + cp / 64, 0x80 + cp % 64]
  else if cp < 0x10000 then [0xE0 + cp / 4096, 0x80 + cp / 64 % 64, 0x80 + cp % 64]
  else [0xF0 + cp / 262144, 0x80 + cp / 4096 % 64, 0x80 + cp / 64 % 64, 0x80 + cp % 64]

/-- The percent-escapes of the UTF-8 encoding of a code point. -/
def escapeCodePoint (cp : Nat) : JSString := (utf8Bytes cp).flatMap percentByte

/-- The error `encodeURIComponent` throws on an unpaired surrogate (message as in V8). -/
def uriError : JSError := ⟨js "URIError", js "URI malformed"⟩

/-- The builtin `encodeURIComponent` (ECMA-262, Encode with the unreserved set):
unreserved code units are copied, every other code point is UTF-8 encoded and
percent-escaped, and an unpaired surrogate throws a `URIError`. -/
def encodeURIComponent : JSString → Except JSError JSString
  | [] => .ok []
  | c :: rest =>
    if isUnreserved c then
      match encodeURIComponent rest with
      | .ok out => .ok (c :: out)
      | .error e => .error e
    else if isTrailSurrogate c then .error uriError
    else if isLeadSurrogate c then
      match rest with
      | [] => .error uriError
      | lo :: rest2 =>
        if isTrailSurrogate lo then
          match encodeURIComponent rest2 with
          | .ok out => .ok (escapeCodePoint (0x10000 + (c - 0xD800) * 0x400 + (lo - 0xDC00)) ++ out)
          | .error e => .error e
        else .error uriError
    else
      match encodeURIComponent rest with
      | .ok out => .ok (escapeCodePoint c ++ out)
      | .error e => .error e

/-- The builtin `String.prototype.isWellFormed`: no unpaired surrogate occurs. -/
def isWellFormed : JSString → Bool
  | [] => true
  | c :: rest =>
    if isTrailSurrogate c then false
    else if isLeadSurrogate c then
      match rest with
      | [] => false
      | lo :: rest2 => isTrailSurrogate lo && isWellFormed rest2
    else isWellFormed rest

/-! ## Math.random and the colour index -/

/-- A double in `[0, 1)`, the range of `Math.random()`: the value `m / 2^e`
with a significand below `2^53` and an exponent within the binary64 range. -/
structure UnitDouble where
  m : Nat
  e : Nat
  m_lt : m < 2 ^ 53
  e_le : e ≤ 1074
  lt_one : m < 2 ^ e

/-- The number of bits by which `p` exceeds a 53-bit significand. -/
def excessBits : Nat → Nat → Nat
  | 0, _ => 0
  | fuel + 1, p => if p < 2 ^ 53 then 0 else 1 + excessBits fuel (p / 2)

/-- Division of `p` by `2^s`, rounded to nearest, ties to even. -/
def roundShift (p s : Nat) : Nat :=
  let q := p / 2 ^ s
  let r := p % 2 ^ s
  if 2 ^ s < 2 * r ∨ (2 * r = 2 ^ s ∧ q % 2 = 1) then q + 1 else q

/-- The expression `Math.floor(r * k)` for a double `r` in `[0, 1)` and a small
integer `k`: the exact product `r.m * k / 2^r.e` is rounded to a 53-bit
significand (round to nearest, ties to even), then floored. -/
def floorMul (r : UnitDouble) (k : Nat) : Nat :=
  let p := r.m * k
  let s := excessBits 64 p
  roundShift p s * 2 ^ s / 2 ^ r.e

/-! ## Effects, traces and the outside world -/

/-- The functions of the program whose entry is recorded in the trace. -/
inductive Method
  | removeBackground
  | simulateRemoveBackground
  | generateBackground
  | generateWithDalle
  | generateWithStabilityAI
  | simulateBackgroundGeneration
  | processImage
  | simulateProcessing
deriving DecidableEq, Repr

/-- One observable step of a run. -/
inductive Effect
  /-- Entry of a function of the program. -/
  | invoke (f : Method)
  /-- The call `axios.post` of `removeBackground`. -/
  | removeBgPost (url apiKey : JSString) (imageBuffer : Buffer) (filename : JSString)
  /-- The call `axios.post` of `generateWithDalle`. -/
  | dallePost (url authorization prompt : JSString)
  /-- The call `axios.post` of `generateWithStabilityAI`. -/
  | stabilityPost (url authorization prompt : JSString)
  /-- A call of `Math.random()`. -/
  | mathRandom
  /-- A call of `Date.now()`. -/
  | dateNow
  /-- An evaluation of `new Date().toISOString()`. -/
  | newDateISO
  /-- An awaited `setTimeout(resolve, ms)`. -/
  | sleep (ms : Nat)
deriving DecidableEq, Repr

/-- The effects of a run, oldest first. -/
abbrev Trace := List Effect

/-- The uploaded file multer hands to a route handler (`req.file`). -/
structure File where
  buffer : Buffer
  originalname : JSString
  size : Nat

/-- What a route handler reads of a request: `req.file` and the text field
`req.body.prompt`, each `none` when absent. -/
structure Request where
  file : Option File
  prompt : Option JSString

/-- What the middleware `upload.single` does with a request: it calls
`next(err)`, or it calls `next()` with `req.file` and `req.body` set. -/
inductive Parsed
  | rejected (err : JSError)
  | passed (req : Request)

/-- Everything the program does not control.  Each answer is a function of the
trace up to and including the call being answered, so the same request may be
answered differently at different times.  A provider call either resolves with
the part of the response the program reads, or rejects with an error whose
`message` is given (network failure, non-2xx status). -/
structure World where
  /-- The bytes `response.data` of remove.bg. -/
  removeBgResponse : Trace → Except JSString Buffer
  /-- The field `response.data.data[0].url` of the DALL-E response. -/
  dalleResponse : Trace → Except JSString JSString
  /-- The field `response.data.artifacts[0].base64` of the Stability response. -/
  stabilityResponse : Trace → Except JSString JSString
  /-- The value of `Math.random()`. -/
  random : Trace → UnitDouble
  /-- The value of `Date.now()`, in milliseconds. -/
  now : Trace → Int
  /-- The value of `new Date().toISOString()`. -/
  isoTimestamp : Trace → JSString
  /-- What multer (memory storage, file size limit, one file in the field
  `photo`) makes of a multipart body with a boundary, given its text field
  `prompt` and its file parts with their field names, in order. -/
  multer : Option JSString → List (JSString × File) → Parsed
  /-- The HTML page of the default error handler of Express for an error. -/
  errorPage : JSError → JSString

/-- A computation: from the trace so far to an outcome and the extended trace. -/
def M (α : Type) : Type := Trace → Except JSError α × Trace

/-- Return a value. -/
def M.pure {α : Type} (a : α) : M α := fun t => (.ok a, t)

/-- Sequencing; a thrown error skips the rest. -/
def M.bind {α β : Type} (m : M α) (f : α → M β) : M β := fun t =>
  match m t with
  | (.ok a, t1) => f a t1
  | (.error e, t1) => (.error e, t1)

/-- The statement `throw e`. -/
def M.throw {α : Type} (e : JSError) : M α := fun t => (.error e, t)

/-- The statement `try { body } catch (error) { handler }`. -/
def M.tryCatch {α : Type} (body : M α) (handler : JSError → M α) : M α := fun t =>
  match body t with
  | (.ok a, t1) => (.ok a, t1)
  | (.error e, t1) => handler e t1

/-- Record an effect and read its value from the world. -/
def M.perform {α : Type} (ev : Effect) (answer : Trace → α) : M α := fun t =>
  (.ok (answer (t ++ [ev])), t ++ [ev])

/-- An awaited provider call: record it, then resolve or reject as the world says. -/
def M.await {α : Type} (ev : Effect) (answer : Trace → Except JSString α) : M α := fun t =>
  match answer (t ++ [ev]) with
  | .ok a => (.ok a, t ++ [ev])
  | .error message => (.error ⟨js "AxiosError", message⟩, t ++ [ev])

instance : Monad M where
  pure := M.pure
  bind := M.bind

/-- Record the entry of a function. -/
def enter (f : Method) : M Unit := M.perform (.invoke f) (fun _ => ())

/-! ## Configuration -/

/-- The environment variables the services read; `none` is `undefined`. -/
structure Env where
  REMOVE_BG_API_KEY : Option JSString
  OPENAI_API_KEY : Option JSString
  STABILITY_AI_API_KEY : Option JSString

/-- JavaScript truthiness of an environment value: defined and not empty. -/
def truthy : Option JSString → Bool
  | none => false
  | some s => !s.isEmpty

/-- The string an environment value contributes to a template literal or header. -/
def keyText : Option JSString → JSString
  | none => js "undefined"
  | some s => s

/-! ## services/removeBgService.js -/

/-- The fields of a `RemoveBgService`. -/
structure RemoveBgService where
  apiKey : Option JSString
  baseURL : JSString

/-- The constructor of `RemoveBgService`. -/
def RemoveBgService.constructor (env : Env) : RemoveBgService :=
  ⟨env.REMOVE_BG_API_KEY, js "https://api.remove.bg/v1.0"⟩

/-- The method `simulateRemoveBackground`: the buffer is returned as it came. -/
def RemoveBgService.simulateRemoveBackground (_self : RemoveBgService)
    (imageBuffer : Buffer) (_filename : JSString) : M Buffer := do
  enter .simulateRemoveBackground
  pure imageBuffer

/-- The method `removeBackground`. -/
def RemoveBgService.removeBackground (W : World) (self : RemoveBgService)
    (imageBuffer : Buffer) (filename : JSString) : M Buffer := do
  enter .removeBackground
  if !truthy self.apiKey || self.apiKey == some (js "your_remove_bg_api_key_here") then
    self.simulateRemoveBackground imageBuffer filename
  else
    M.tryCatch
      (do
        let data ← M.await
          (.removeBgPost (self.baseURL ++ js "/removebg") (keyText self.apiKey) imageBuffer filename)
          W.removeBgResponse
        pure data)
      (fun error => M.throw (mkError (js "Background removal failed: " ++ error.message)))

/-! ## services/aiBackgroundService.js -/

/-- The fields of an `AiBackgroundService`. -/
structure AiBackgroundService where
  openaiKey : Option JSString
  stabilityKey : Option JSString

/-- The constructor of `AiBackgroundService`. -/
def AiBackgroundService.constructor (env : Env) : AiBackgroundService :=
  ⟨env.OPENAI_API_KEY, env.STABILITY_AI_API_KEY⟩

/-- The method `generateWithDalle`. -/
def AiBackgroundService.generateWithDalle (W : World) (self : AiBackgroundService)
    (prompt : JSString) : M JSString := do
  enter .generateWithDalle
  M.tryCatch
    (do
      let enhancedPrompt := prompt ++
        js ", professional photography, realistic lighting and shadows, high quality background"
      let url ← M.await
        (.dallePost (js "https://api.openai.com/v1/images/generations")
          (js "Bearer " ++ keyText self.openaiKey) enhancedPrompt)
        W.dalleResponse
      pure url)
    (fun error => M.throw (mkError (js "AI background generation failed: " ++ error.message)))

/-- The method `generateWithStabilityAI`. -/
def AiBackgroundService.generateWithStabilityAI (W : World) (self : AiBackgroundService)
    (prompt : JSString) : M JSString := do
  enter .generateWithStabilityAI
  M.tryCatch
    (do
      let imageBase64 ← M.await
        (.stabilityPost
          (js "https://api.stability.ai/v1/generation/stable-diffusion-xl-1024-v1-0/text-to-image")
          (js "Bearer " ++ keyText self.stabilityKey) prompt)
        W.stabilityResponse
      pure (js "data:image/png;base64," ++ imageBase64))
    (fun error => M.throw (mkError (js "AI background generation failed: " ++ error.message)))

/-- The array `colors` of `simulateBackgroundGeneration`. -/
def colors : List JSString := [js "4A90E2", js "50E3C2", js "B8E986", js "F5A623", js "D0021B"]

/-- The element `colors[i]` as it appears in a template literal. -/
def colorAt (i : Nat) : JSString :=
  match colors.get? i with
  | some c => c
  | none => js "undefined"

/-- The method `simulateBackgroundGeneration`. -/
def AiBackgroundService.simulateBackgroundGeneration (W : World) (_self : AiBackgroundService)
    (prompt : JSString) : M JSString := do
  enter .simulateBackgroundGeneration
  let r ← M.perform .mathRandom W.random
  let randomColor := colorAt (floorMul r colors.length)
  match encodeURIComponent prompt with
  | .error e => M.throw e
  | .ok escaped =>
    pure (js "https://via.placeholder.com/1024x1024/" ++ randomColor ++ js "/FFFFFF?text=" ++ escaped)

/-- The method `generateBackground`. -/
def AiBackgroundService.generateBackground (W : World) (self : AiBackgroundService)
    (_noBackgroundImage : Buffer) (prompt : JSString) : M JSString := do
  enter .generateBackground
  if truthy self.openaiKey && self.openaiKey != some (js "your_openai_api_key_here") then
    self.generateWithDalle W prompt
  else if truthy self.stabilityKey && self.stabilityKey != some (js "your_stability_ai_key_here") then
    self.generateWithStabilityAI W prompt
  else
    self.simulateBackgroundGeneration W prompt

/-! ## server.js: values, requests and responses -/

/-- A JavaScript value as it travels in a JSON body or a socket payload. -/
inductive JsVal
  | undefined
  | null
  | bool (b : Bool)
  | num (n : Int)
  | str (s : JSString)
  | arr (items : List JsVal)
  | obj (fields : List (JSString × JsVal))

/-- The error thrown by a property read on `undefined` or `null` (message as in V8). -/
def nullishReadError (what key : JSString) : JSError :=
  ⟨js "TypeError",
    js "Cannot read properties of " ++ what ++ js " (reading " ++ [39] ++ key ++ [39] ++ js ")"⟩

/-- The property read `v.key`, for a key that no prototype defines (such as
`prompt`): an own field of an object, `undefined` on any other value, and a
`TypeError` on `undefined` and `null`. -/
def JsVal.getProp (v : JsVal) (key : JSString) : Except JSError JsVal :=
  match v with
  | .undefined => .error (nullishReadError (js "undefined") key)
  | .null => .error (nullishReadError (js "null") key)
  | .obj fields =>
    match fields.lookup key with
    | some x => .ok x
    | none => .ok .undefined
  | _ => .ok .undefined

/-- Assignment of one key of an object under construction: an existing key
keeps its place and takes the new value, a new key goes last. -/
def setField (key : JSString) (value : JsVal) : List (JSString × JsVal) → List (JSString × JsVal)
  | [] => [(key, value)]
  | (k, v) :: rest => if k = key then (k, value) :: rest else (k, v) :: setField key value rest

/-- The object built by an object literal from its entries, in source order. -/
def objectLiteral (entries : List (JSString × JsVal)) : JsVal :=
  .obj (entries.foldl (fun acc kv => setField kv.1 kv.2 acc) [])

/-- The body of a response: the JSON value given to `res.json`, or the HTML
page Express renders for an error no handler caught. -/
inductive ResponseBody
  | json (value : JsVal)
  | html (page : JSString)

/-- The response of a route: status code and body. -/
structure Response where
  status : Nat
  body : ResponseBody

/-- The expression `value || fallback` on an optional string. -/
def orElse (value : Option JSString) (fallback : JSString) : JSString :=
  match value with
  | none => fallback
  | some s => if s.isEmpty then fallback else s

/-- The singleton `removeBgService` of the server. -/
def removeBgService (env : Env) : RemoveBgService := RemoveBgService.constructor env

/-- The singleton `aiBackgroundService` of the server. -/
def aiBackgroundService (env : Env) : AiBackgroundService := AiBackgroundService.constructor env

/-- The object `processImage` returns. -/
structure ProcessingResult where
  original : JSString
  processed : JSString
  prompt : JSString
  processingTime : JSString
deriving DecidableEq, Repr

/-- The own properties of a `ProcessingResult`, as spread by `...result`. -/
def ProcessingResult.entries (r : ProcessingResult) : List (JSString × JsVal) :=
  [(js "original", .str r.original), (js "processed", .str r.processed),
   (js "prompt", .str r.prompt), (js "processingTime", .str r.processingTime)]

/-- The function `processImage`. -/
def processImage (W : World) (env : Env) (file : File) (prompt : JSString) :
    M ProcessingResult := do
  enter .processImage
  let startTime ← M.perform .dateNow W.now
  M.tryCatch
    (do
      let noBgResult ← (removeBgService env).removeBackground W file.buffer file.originalname
      let finalResult ← (aiBackgroundService env).generateBackground W noBgResult prompt
      let endTime ← M.perform .dateNow W.now
      let processingTime := endTime - startTime
      pure
        ⟨js "Original image processed (" ++ natToString file.size ++ js " bytes)",
          finalResult, prompt, intToString processingTime ++ js "ms"⟩)
    (fun error => M.throw (mkError (js "Processing failed: " ++ error.message)))

/-- The object `simulateProcessing` returns. -/
structure SimulatedResult where
  original : JSString
  processed : JSString
  prompt : JSString
  processingTime : JSString
  steps : List JSString

/-- The own properties of a `SimulatedResult`, as spread by `...result`. -/
def SimulatedResult.entries (r : SimulatedResult) : List (JSString × JsVal) :=
  [(js "original", .str r.original), (js "processed", .str r.processed),
   (js "prompt", .str r.prompt), (js "processingTime", .str r.processingTime),
   (js "steps", .arr (r.steps.map .str))]

/-- The function `simulateProcessing`. -/
def simulateProcessing (W : World) (file : File) (prompt : JSString) : M SimulatedResult := do
  enter .simulateProcessing
  let startTime ← M.perform .dateNow W.now
  M.perform (.sleep 2000) (fun _ => ())
  M.perform (.sleep 3000) (fun _ => ())
  let endTime ← M.perform .dateNow W.now
  let processingTime := endTime - startTime
  pure
    ⟨js "TEST: " ++ file.originalname ++ js " (" ++ natToString file.size ++ js " bytes)",
      js "https://via.placeholder.com/1024x1024/4A90E2/FFFFFF?text=AI+Generated+Background",
      prompt, intToString processingTime ++ js "ms",
      [js "Background removal - SIMULATED", js "AI background generation - SIMULATED",
       js "Light matching - SIMULATED"]⟩

/-- A request as it arrives at a route, before multer. -/
inductive Incoming
  /-- The content type is not `multipart/form-data`: multer leaves the request
  as it is, with `req.body.prompt` as the body parsers left it. -/
  | notMultipart (prompt : Option JSString)
  /-- The content type is `multipart/form-data` but names no boundary, so the
  body has no parts. -/
  | multipartWithoutBoundary
  /-- The content type is `multipart/form-data` with a boundary: the text field
  `prompt` and the file parts with their field names, in order. -/
  | multipart (prompt : Option JSString) (files : List (JSString × File))

/-- Whether a request carries a file. -/
def Incoming.carriesFile : Incoming → Bool
  | .multipart _ (_ :: _) => true
  | _ => false

/-- The middleware `upload.single('photo')` of both upload routes: a request
that is not multipart is passed on untouched, a multipart request without a
boundary is rejected with the error busboy throws, and any other multipart
request is handled as the world's multer says. -/
def uploadSingle (W : World) : Incoming → Parsed
  | .notMultipart prompt => .passed ⟨none, prompt⟩
  | .multipartWithoutBoundary => .rejected (mkError (js "Multipart: Boundary not found"))
  | .multipart prompt files => W.multer prompt files

/-- The default error handler of Express, which answers when a middleware
calls `next(err)` and the application registers no error middleware: status
500 for an error without a status of its own, and an HTML page. -/
def defaultErrorHandler (W : World) (err : JSError) : Response :=
  ⟨500, .html (W.errorPage err)⟩

/-- The handler of `POST /api/upload`, which runs when multer has passed the request on. -/
def uploadHandler (W : World) (env : Env) (req : Request) : M Response :=
  M.tryCatch
    (match req.file with
      | none => pure ⟨400, .json (objectLiteral [(js "error", .str (js "No file uploaded"))])⟩
      | some file => do
        let prompt := orElse req.prompt (js "professional studio background with soft lighting")
        let result ← processImage W env file prompt
        let timestamp ← M.perform .newDateISO W.isoTimestamp
        pure ⟨200, .json (objectLiteral
          ([(js "success", .bool true), (js "message", .str (js "Image processed successfully"))]
            ++ result.entries
            ++ [(js "processingTime", .str result.processingTime),
                (js "timestamp", .str timestamp)]))⟩)
    (fun error => pure ⟨500, .json (objectLiteral
      [(js "error", .str (js "Image processing failed")), (js "details", .str error.message)])⟩)

/-- The handler of `POST /api/test-upload`, which runs when multer has passed the request on. -/
def testUploadHandler (W : World) (req : Request) : M Response :=
  M.tryCatch
    (match req.file with
      | none => pure ⟨400, .json (objectLiteral [(js "error", .str (js "No file uploaded"))])⟩
      | some file => do
        let prompt := orElse req.prompt (js "beach sunset background")
        let result ← simulateProcessing W file prompt
        let timestamp ← M.perform .newDateISO W.isoTimestamp
        pure ⟨200, .json (objectLiteral
          ([(js "success", .bool true),
            (js "message", .str (js "TEST MODE - Image processing simulated"))]
            ++ result.entries
            ++ [(js "note",
                  .str (js "This is a simulation. Enable real processing in production.")),
                (js "timestamp", .str timestamp)]))⟩)
    (fun error => pure ⟨500, .json (objectLiteral [(js "error", .str error.message)])⟩)

/-- The route `app.post('/api/upload', upload.single('photo'), handler)`. -/
def postApiUpload (W : World) (env : Env) (incoming : Incoming) : M Response :=
  match uploadSingle W incoming with
  | .rejected err => pure (defaultErrorHandler W err)
  | .passed req => uploadHandler W env req

/-- The route `app.post('/api/test-upload', upload.single('photo'), handler)`. -/
def postApiTestUpload (W : World) (incoming : Incoming) : M Response :=
  match uploadSingle W incoming with
  | .rejected err => pure (defaultErrorHandler W err)
  | .passed req => testUploadHandler W req

/-! ## server.js: the socket handler -/

/-- One call `socket.emit(event, payload)` on the connection of the handler. -/
structure Emitted where
  event : JSString
  payload : JsVal

/-- A callback registered with `setTimeout(callback, delay)`: when it runs it
either emits or throws. -/
structure Timer where
  delay : Nat
  callback : Unit → Except JSError (List Emitted)

/-- The handler of `camera-upload`: what it emits before returning, and the
timers it registers, in registration order. -/
def onCameraUpload (data : JsVal) : List Emitted × List Timer :=
  ([⟨js "processing-status", objectLiteral
      [(js "status", .str (js "started")),
       (js "message", .str (js "Starting background removal..."))]⟩],
   [⟨2000, fun _ => .ok
      [⟨js "processing-status", objectLiteral
        [(js "status", .str (js "background_removed")),
         (js "message", .str (js "Generating new background..."))]⟩]⟩,
    ⟨5000, fun _ =>
      match data.getProp (js "prompt") with
      | .error e => .error e
      | .ok prompt => .ok
        [⟨js "processing-complete", objectLiteral
          [(js "status", .str (js "completed")),
           (js "result", objectLiteral
             [(js "original", .str (js "https://example.com/original.jpg")),
              (js "processed", .str (js "https://example.com/processed.jpg")),
              (js "prompt", prompt)])]⟩]⟩])

/-- Insertion of a timer behind all timers that are due no later. -/
def insertTimer (t : Timer) : List Timer → List Timer
  | [] => [t]
  | u :: rest => if t.delay < u.delay then t :: u :: rest else u :: insertTimer t rest

/-- The order in which timers registered together fire: by delay, and by
registration order among equal delays. -/
def fireOrder (timers : List Timer) : List Timer :=
  timers.foldl (fun queue t => insertTimer t queue) []

/-- The event loop on a queue of due timers: callbacks run in turn; one that
throws is an uncaught exception, which ends the process. -/
def runTimers : List Timer → List Emitted × Option JSError
  | [] => ([], none)
  | t :: rest =>
    match t.callback () with
    | .error e => ([], some e)
    | .ok emitted => ((emitted ++ (runTimers rest).1), (runTimers rest).2)

/-- Everything emitted for one `camera-upload` event, in order, and the
uncaught exception that cut it short, if any. -/
def cameraUploadRun (data : JsVal) : List Emitted × Option JSError :=
  ((onCameraUpload data).1 ++ (runTimers (fireOrder (onCameraUpload data).2)).1,
    (runTimers (fireOrder (onCameraUpload data).2)).2)

/-! ## Vocabulary of the statements -/

/-- A credential is usable when it is set, not empty, and not the placeholder. -/
def usable (placeholder : JSString) (key : Option JSString) : Bool :=
  match key with
  | none => false
  | some s => s ≠ [] && s ≠ placeholder

/-- The stage entries among the effects of a run, in order. -/
def stageInvocations (d : Trace) : List Method :=
  d.filterMap fun ev =>
    match ev with
    | .invoke .removeBackground => some .removeBackground
    | .invoke .generateBackground => some .generateBackground
    | _ => none

/-- The calls to external providers among the effects of a run. -/
def providerCalls (d : Trace) : Trace :=
  d.filter fun ev =>
    match ev with
    | .removeBgPost _ _ _ _ => true
    | .dallePost _ _ _ => true
    | .stabilityPost _ _ _ => true
    | _ => false

/-- The effects of a live removal: entry, then the call to remove.bg. -/
def liveRemovalEffects (key : JSString) (imageBuffer : Buffer) (filename : JSString) : Trace :=
  [.invoke .removeBackground,
   .removeBgPost (js "https://api.remove.bg/v1.0/removebg") key imageBuffer filename]

/-- The effects of a generation by DALL-E: entries, then the call to OpenAI. -/
def dalleEffects (key prompt : JSString) : Trace :=
  [.invoke .generateBackground, .invoke .generateWithDalle,
   .dallePost (js "https://api.openai.com/v1/images/generations") (js "Bearer " ++ key)
     (prompt ++
       js ", professional photography, realistic lighting and shadows, high quality background")]

/-- The effects of a generation by Stability AI: entries, then the call to Stability. -/
def stabilityEffects (key prompt : JSString) : Trace :=
  [.invoke .generateBackground, .invoke .generateWithStabilityAI,
   .stabilityPost
     (js "https://api.stability.ai/v1/generation/stable-diffusion-xl-1024-v1-0/text-to-image")
     (js "Bearer " ++ key) prompt]

/-- The effects of a simulated generation: entries, then one random draw. -/
def simulationEffects : Trace :=
  [.invoke .generateBackground, .invoke .simulateBackgroundGeneration, .mathRandom]

/-! ## Concrete worlds and inputs -/

/-- A world in which every provider rejects, `Math.random()` is 0.5, and the
clock advances by one millisecond per recorded effect. -/
def rejectingWorld : World :=
  ⟨fun _ => .error (js "Network Error"),
   fun _ => .error (js "Request failed with status code 401"),
   fun _ => .error (js "Request failed with status code 403"),
   fun _ => ⟨1, 1, by decide, by decide, by decide⟩,
   fun t => 1700000000000 + (t.length : Int),
   fun _ => js "2024-01-01T00:00:00.000Z",
   fun prompt files =>
     match files with
     | [] => .passed ⟨none, prompt⟩
     | (field, file) :: _ =>
       if field = js "photo" then .passed ⟨some file, prompt⟩
       else .rejected ⟨js "MulterError", js "Unexpected field"⟩,
   fun err => js "<pre>" ++ err.message ++ js "</pre>"⟩

/-- A world like `rejectingWorld` in which both clock reads fall in the same millisecond. -/
def sameMillisecondWorld : World :=
  ⟨rejectingWorld.removeBgResponse, rejectingWorld.dalleResponse, rejectingWorld.stabilityResponse,
   rejectingWorld.random, fun _ => 1700000000000, rejectingWorld.isoTimestamp,
   rejectingWorld.multer, rejectingWorld.errorPage⟩

/-- A world like `rejectingWorld` in which remove.bg answers with a cut-out image. -/
def answeringWorld : World :=
  ⟨fun _ => .ok [137, 80, 78, 71], rejectingWorld.dalleResponse,
   rejectingWorld.stabilityResponse, rejectingWorld.random, rejectingWorld.now,
   rejectingWorld.isoTimestamp, rejectingWorld.multer, rejectingWorld.errorPage⟩

/-- No credential is configured. -/
def noCredentials : Env := ⟨none, none, none⟩

/-- All three credentials are configured with real-looking keys. -/
def allCredentials : Env := ⟨some (js "rbg-key"), some (js "sk-openai"), some (js "sk-stability")⟩

/-- The upload of the spec's example: `photo.jpg`, 50000 bytes. -/
def photo : File := ⟨List.replicate 50000 0, js "photo.jpg", 50000⟩

/-- The effects of a whole pipeline run in which both stages are simulated. -/
def simulatedPipelineEffects : Trace :=
  [.invoke .processImage, .dateNow, .invoke .removeBackground, .invoke .simulateRemoveBackground,
   .invoke .generateBackground, .invoke .simulateBackgroundGeneration, .mathRandom, .dateNow]

/-- The first event of every upload: `processing-status`, status `started`. -/
def startedEvent : Emitted :=
  ⟨js "processing-status",
    .obj [(js "status", .str (js "started")),
          (js "message", .str (js "Starting background removal..."))]⟩

/-- The second event: `processing-status`, status `background_removed`. -/
def backgroundRemovedEvent : Emitted :=
  ⟨js "processing-status",
    .obj [(js "status", .str (js "background_removed")),
          (js "message", .str (js "Generating new background..."))]⟩

/-- The third event: `processing-complete`, status `completed`, with the prompt of the payload. -/
def completedEvent (prompt : JsVal) : Emitted :=
  ⟨js "processing-complete",
    .obj [(js "status", .str (js "completed")),
          (js "result",
            .obj [(js "original", .str (js "https://example.com/original.jpg")),
                  (js "processed", .str (js "https://example.com/processed.jpg")),
                  (js "prompt", prompt)])]⟩

/-! # Theorems -/

/-! ## Running computations -/

theorem pure_eq {α : Type} (a : α) : (pure a : M α) = M.pure a := rfl

theorem bind_eq {α β : Type} (m : M α) (f : α → M β) : (m >>= f) = M.bind m f := rfl

theorem enter_run (f : Method) (t : Trace) : enter f t = (.ok (), t ++ [.invoke f]) := rfl

theorem usable_eq_false (placeholder : JSString) (key : Option JSString) :
    usable placeholder key = false ↔ key = none ∨ key = some [] ∨ key = some placeholder := by
  cases key with
  | none => simp [usable]
  | some s =>
    by_cases h1 : s = [] <;> by_cases h2 : s = placeholder <;> simp [usable, h1, h2]

theorem usable_eq_true (placeholder : JSString) (key : Option JSString) :
    usable placeholder key = true ↔ ∃ s, key = some s ∧ s ≠ [] ∧ s ≠ placeholder := by
  cases key with
  | none => simp [usable]
  | some s => simp [usable]

/-- A removal without a usable credential passes the buffer through. -/
theorem removeBackground_simulated (W : World) (self : RemoveBgService) (imageBuffer : Buffer)
    (filename : JSString) (t : Trace)
    (h : usable (js "your_remove_bg_api_key_here") self.apiKey = false) :
    self.removeBackground W imageBuffer filename t =
      (.ok imageBuffer, t ++ [.invoke .removeBackground, .invoke .simulateRemoveBackground]) := by
  obtain ⟨k, u⟩ := self
  rw [usable_eq_false] at h
  simp only at h
  rcases h with rfl | rfl | rfl <;>
    simp [RemoveBgService.removeBackground, RemoveBgService.simulateRemoveBackground,
      bind_eq, pure_eq, M.bind, M.pure, enter_run, truthy]

/-- A removal with a usable credential calls remove.bg once and relays its outcome. -/
theorem removeBackground_live (W : World) (self : RemoveBgService) (imageBuffer : Buffer)
    (filename : JSString) (t : Trace) (key : JSString) (hk : self.apiKey = some key)
    (h1 : key ≠ []) (h2 : key ≠ js "your_remove_bg_api_key_here") :
    self.removeBackground W imageBuffer filename t =
      (match W.removeBgResponse (t ++ [.invoke .removeBackground,
          .removeBgPost (self.baseURL ++ js "/removebg") key imageBuffer filename]) with
        | .ok d => .ok d
        | .error m => .error (mkError (js "Background removal failed: " ++ m)),
       t ++ [.invoke .removeBackground,
          .removeBgPost (self.baseURL ++ js "/removebg") key imageBuffer filename]) := by
  obtain ⟨k0, u⟩ := self
  simp only at hk
  subst hk
  simp [RemoveBgService.removeBackground, bind_eq, pure_eq, M.bind, M.pure, enter_run, truthy,
    h1, h2, M.tryCatch, M.await, keyText, M.throw]
  cases W.removeBgResponse (t ++ [.invoke .removeBackground,
    .removeBgPost (u ++ js "/removebg") key imageBuffer filename]) <;> simp

theorem generateWithDalle_run (W : World) (self : AiBackgroundService) (prompt : JSString)
    (t : Trace) :
    self.generateWithDalle W prompt t =
      (match W.dalleResponse (t ++ [.invoke .generateWithDalle,
          .dallePost (js "https://api.openai.com/v1/images/generations")
            (js "Bearer " ++ keyText self.openaiKey)
            (prompt ++ js ", professional photography, realistic lighting and shadows, high quality background")]) with
        | .ok u => .ok u
        | .error m => .error (mkError (js "AI background generation failed: " ++ m)),
       t ++ [.invoke .generateWithDalle,
          .dallePost (js "https://api.openai.com/v1/images/generations")
            (js "Bearer " ++ keyText self.openaiKey)
            (prompt ++ js ", professional photography, realistic lighting and shadows, high quality background")]) := by
  simp [AiBackgroundService.generateWithDalle, bind_eq, pure_eq, M.bind, M.pure, enter_run,
    M.tryCatch, M.await, M.throw]
  cases W.dalleResponse (t ++ [.invoke .generateWithDalle,
          .dallePost (js "https://api.openai.com/v1/images/generations")
            (js "Bearer " ++ keyText self.openaiKey)
            (prompt ++ js ", professional photography, realistic lighting and shadows, high quality background")]) <;> simp

theorem generateWithStabilityAI_run (W : World) (self : AiBackgroundService) (prompt : JSString)
    (t : Trace) :
    self.generateWithStabilityAI W prompt t =
      (match W.stabilityResponse (t ++ [.invoke .generateWithStabilityAI,
          .stabilityPost
            (js "https://api.stability.ai/v1/generation/stable-diffusion-xl-1024-v1-0/text-to-image")
            (js "Bearer " ++ keyText self.stabilityKey) prompt]) with
        | .ok b => .ok (js "data:image/png;base64," ++ b)
        | .error m => .error (mkError (js "AI background generation failed: " ++ m)),
       t ++ [.invoke .generateWithStabilityAI,
          .stabilityPost
            (js "https://api.stability.ai/v1/generation/stable-diffusion-xl-1024-v1-0/text-to-image")
            (js "Bearer " ++ keyText self.stabilityKey) prompt]) := by
  simp [AiBackgroundService.generateWithStabilityAI, bind_eq, pure_eq, M.bind, M.pure, enter_run,
    M.tryCatch, M.await, M.throw]
  cases W.stabilityResponse (t ++ [.invoke .generateWithStabilityAI,
          .stabilityPost
            (js "https://api.stability.ai/v1/generation/stable-diffusion-xl-1024-v1-0/text-to-image")
            (js "Bearer " ++ keyText self.stabilityKey) prompt]) <;> simp

theorem simulateBackgroundGeneration_run (W : World) (self : AiBackgroundService)
    (prompt : JSString) (t : Trace) :
    self.simulateBackgroundGeneration W prompt t =
      (match encodeURIComponent prompt with
        | .ok escaped => .ok (js "https://via.placeholder.com/1024x1024/" ++
            colorAt (floorMul (W.random (t ++ [.invoke .simulateBackgroundGeneration, .mathRandom]))
              colors.length) ++ js "/FFFFFF?text=" ++ escaped)
        | .error e => .error e,
       t ++ [.invoke .simulateBackgroundGeneration, .mathRandom]) := by
  simp [AiBackgroundService.simulateBackgroundGeneration, bind_eq, pure_eq, M.bind, M.pure,
    enter_run, M.perform, M.throw]
  cases encodeURIComponent prompt <;> simp [pure_eq, M.pure, M.throw]

/-- The three branches of `generateBackground`, by the usability of the two credentials. -/
theorem generateBackground_run (W : World) (self : AiBackgroundService) (img : Buffer)
    (prompt : JSString) (t : Trace) :
    self.generateBackground W img prompt t =
      if usable (js "your_openai_api_key_here") self.openaiKey then
        self.generateWithDalle W prompt (t ++ [.invoke .generateBackground])
      else if usable (js "your_stability_ai_key_here") self.stabilityKey then
        self.generateWithStabilityAI W prompt (t ++ [.invoke .generateBackground])
      else
        self.simulateBackgroundGeneration W prompt (t ++ [.invoke .generateBackground]) := by
  obtain ⟨k1, k2⟩ := self
  cases k1 <;> cases k2 <;>
    simp [AiBackgroundService.generateBackground, bind_eq, M.bind, enter_run, truthy, usable,
      List.isEmpty_iff] <;>
    split_ifs <;> simp_all

/-! ## The colour index -/

theorem excessBits_le_of_lt (k : Nat) : ∀ (fuel p : Nat), p < 2 ^ (53 + k) → excessBits fuel p ≤ k := by
  induction k with
  | zero =>
    intro fuel p hp
    cases fuel with
    | zero => simp [excessBits]
    | succ f =>
      have hp2 : p < 2 ^ 53 := hp
      simp only [excessBits]
      rw [if_pos hp2]
  | succ k ih =>
    intro fuel p hp
    cases fuel with
    | zero => simp [excessBits]
    | succ f =>
      have h2 : p / 2 < 2 ^ (53 + k) := by
        have : 2 ^ (53 + (k + 1)) = 2 * 2 ^ (53 + k) := by ring
        omega
      have := ih f (p / 2) h2
      simp only [excessBits]
      split_ifs <;> omega

theorem excessBits_le (p : Nat) (hp : p < 2 ^ 56) : excessBits 64 p ≤ 3 :=
  excessBits_le_of_lt 3 64 p hp

theorem roundShift_le (p s : Nat) (hs : s ≤ 3) : roundShift p s * 2 ^ s ≤ p + 4 := by
  interval_cases s <;> simp only [roundShift] <;> split_ifs <;> omega

/-- The index `Math.floor(Math.random() * 5)` is below 5, rounding included. -/
theorem floorMul_five_lt (r : UnitDouble) : floorMul r 5 < 5 := by
  have hm := r.m_lt
  have h1 := r.lt_one
  have hs : excessBits 64 (r.m * 5) ≤ 3 := excessBits_le _ (by omega)
  have hr := roundShift_le (r.m * 5) _ hs
  unfold floorMul
  apply Nat.div_lt_of_lt_mul
  omega

theorem colorAt_mem (i : Nat) (h : i < 5) : colorAt i ∈ colors := by
  interval_cases i <;> simp [colorAt, colors]

/-! ## Well-formed strings -/

theorem unreserved_not_surrogate (c : Nat) (h : isUnreserved c = true) :
    isTrailSurrogate c = false ∧ isLeadSurrogate c = false := by
  simp only [isUnreserved, isTrailSurrogate, isLeadSurrogate, Bool.or_eq_true, Bool.and_eq_true,
    decide_eq_true_eq, beq_iff_eq, Bool.and_eq_false_imp, decide_eq_false_iff_not] at *
  omega

theorem encodeURIComponent_cons (c : Nat) (rest : JSString) : encodeURIComponent (c :: rest) = 
    if isUnreserved c then
      match encodeURIComponent rest with
      | .ok out => .ok (c :: out)
      | .error e => .error e
    else if isTrailSurrogate c then .error uriError
    else if isLeadSurrogate c then
      match rest with
      | [] => .error uriError
      | lo :: rest2 =>
        if isTrailSurrogate lo then
          match encodeURIComponent rest2 with
          | .ok out => .ok (escapeCodePoint (0x10000 + (c - 0xD800) * 0x400 + (lo - 0xDC00)) ++ out)
          | .error e => .error e
        else .error uriError
    else
      match encodeURIComponent rest with
      | .ok out => .ok (escapeCodePoint c ++ out)
      | .error e => .error e := by
  cases rest <;> rfl

theorem isWellFormed_cons (c : Nat) (rest : JSString) : isWellFormed (c :: rest) =
    if isTrailSurrogate c then false
    else if isLeadSurrogate c then
      match rest with
      | [] => false
      | lo :: rest2 => isTrailSurrogate lo && isWellFormed rest2
    else isWellFormed rest := by
  cases rest <;> rfl

theorem encodeURIComponent_ok_iff (s : JSString) :
    (∃ out, encodeURIComponent s = .ok out) ↔ isWellFormed s = true := by
  induction s using encodeURIComponent.induct with
  | case1 => exact ⟨fun _ => rfl, fun _ => ⟨[], rfl⟩⟩
  | case2 c rest hu out hout ih =>
    have hs := unreserved_not_surrogate c hu
    have hw : isWellFormed rest = true := ih.mp ⟨out, hout⟩
    rw [encodeURIComponent_cons, isWellFormed_cons]
    simp only [hu, hs, hout, hw, if_true]
    simp
  | case3 c rest hu e he ih =>
    have hs := unreserved_not_surrogate c hu
    have hw : isWellFormed rest = false := by
      cases h : isWellFormed rest with
      | false => rfl
      | true =>
        obtain ⟨o, ho⟩ := ih.mpr h
        rw [he] at ho
        cases ho
    rw [encodeURIComponent_cons, isWellFormed_cons]
    simp only [hu, hs, he, hw, if_true]
    simp
  | case4 c rest hu ht =>
    rw [encodeURIComponent_cons, isWellFormed_cons]
    simp [hu, ht]
  | case5 c hu ht hl =>
    rw [encodeURIComponent_cons, isWellFormed_cons]
    simp [hu, ht, hl]
  | case6 c hu ht hl lo rest2 hlo out hout ih =>
    have hw : isWellFormed rest2 = true := ih.mp ⟨out, hout⟩
    rw [encodeURIComponent_cons, isWellFormed_cons]
    simp [hu, ht, hl, hlo, hout, hw]
  | case7 c hu ht hl lo rest2 hlo e he ih =>
    have hw : isWellFormed rest2 = false := by
      cases h : isWellFormed rest2 with
      | false => rfl
      | true =>
        obtain ⟨o, ho⟩ := ih.mpr h
        rw [he] at ho
        cases ho
    rw [encodeURIComponent_cons, isWellFormed_cons]
    simp [hu, ht, hl, hlo, he, hw]
  | case8 c hu ht hl lo rest2 hlo =>
    rw [encodeURIComponent_cons, isWellFormed_cons]
    simp [hu, ht, hl, hlo]
  | case9 c rest hu ht hl out hout ih =>
    have hw : isWellFormed rest = true := ih.mp ⟨out, hout⟩
    rw [encodeURIComponent_cons, isWellFormed_cons]
    simp [hu, ht, hl, hout, hw]
  | case10 c rest hu ht hl e he ih =>
    have hw : isWellFormed rest = false := by
      cases h : isWellFormed rest with
      | false => rfl
      | true =>
        obtain ⟨o, ho⟩ := ih.mpr h
        rw [he] at ho
        cases ho
    rw [encodeURIComponent_cons, isWellFormed_cons]
    simp [hu, ht, hl, he, hw]

/-! ## Claims about the removal stage -/

/-- C1: for every image buffer and filename, when the remove-background
credential is unset, empty or equal to the placeholder, `removeBackground`
succeeds, returns the input buffer itself, and its effects are the two
function entries only: no call to the external provider is made. -/
theorem removeBackground_passthrough_without_credential (W : World) (env : Env)
    (imageBuffer : Buffer) (filename : JSString) (t : Trace)
    (h : env.REMOVE_BG_API_KEY = none ∨ env.REMOVE_BG_API_KEY = some [] ∨
      env.REMOVE_BG_API_KEY = some (js "your_remove_bg_api_key_here")) :
    (RemoveBgService.constructor env).removeBackground W imageBuffer filename t =
        (.ok imageBuffer, t ++ [.invoke .removeBackground, .invoke .simulateRemoveBackground]) ∧
      providerCalls [.invoke .removeBackground, .invoke .simulateRemoveBackground] = [] :=
  ⟨removeBackground_simulated W _ imageBuffer filename t
    ((usable_eq_false _ _).mpr h), rfl⟩

theorem removeBackground_passthrough_without_credential_witness :
    (noCredentials.REMOVE_BG_API_KEY = none ∨ noCredentials.REMOVE_BG_API_KEY = some [] ∨
      noCredentials.REMOVE_BG_API_KEY = some (js "your_remove_bg_api_key_here")) ∧
    (RemoveBgService.constructor noCredentials).removeBackground rejectingWorld [255, 216, 255]
        (js "photo.jpg") [] =
      (.ok [255, 216, 255], [.invoke .removeBackground, .invoke .simulateRemoveBackground]) :=
  ⟨Or.inl rfl,
    (removeBackground_passthrough_without_credential rejectingWorld noCredentials [255, 216, 255]
      (js "photo.jpg") [] (Or.inl rfl)).1⟩

/-- C5: for every image buffer and filename, when the remove-background
credential is usable, the run consists of the entry of `removeBackground`
and one call to remove.bg, and what is returned is decided by that call
alone: if it fails with cause `m`, the result is the error
`Background removal failed: ` followed by `m`, never a buffer; if it
answers with data `d`, the result is `d`.  So the input buffer is returned
only if remove.bg itself answered with it, and the pass-through run, which
returns the input buffer untouched, only occurs when the credential is not
usable. -/
theorem removeBackground_failure_is_surfaced (W : World) (env : Env) (imageBuffer : Buffer)
    (filename : JSString) (t : Trace) (key : JSString)
    (hkey : env.REMOVE_BG_API_KEY = some key) (hne : key ≠ [])
    (hph : key ≠ js "your_remove_bg_api_key_here") :
    ((RemoveBgService.constructor env).removeBackground W imageBuffer filename t).2 =
        t ++ liveRemovalEffects key imageBuffer filename ∧
      (∀ m, W.removeBgResponse (t ++ liveRemovalEffects key imageBuffer filename) = .error m →
        ((RemoveBgService.constructor env).removeBackground W imageBuffer filename t).1 =
          .error (mkError (js "Background removal failed: " ++ m))) ∧
      (RemoveBgService.constructor env).removeBackground W imageBuffer filename t ≠
        (.ok imageBuffer, t ++ [.invoke .removeBackground, .invoke .simulateRemoveBackground]) ∧
      (∀ d, W.removeBgResponse (t ++ liveRemovalEffects key imageBuffer filename) = .ok d →
        ((RemoveBgService.constructor env).removeBackground W imageBuffer filename t).1 = .ok d) ∧
      (((RemoveBgService.constructor env).removeBackground W imageBuffer filename t).1 =
          .ok imageBuffer →
        W.removeBgResponse (t ++ liveRemovalEffects key imageBuffer filename) =
          .ok imageBuffer) := by
  have hrun := removeBackground_live W (RemoveBgService.constructor env) imageBuffer filename t
    key hkey hne hph
  have hurl : (RemoveBgService.constructor env).baseURL ++ js "/removebg" =
      js "https://api.remove.bg/v1.0/removebg" := rfl
  rw [hurl] at hrun
  refine ⟨?_, ?_, ?_, ?_, ?_⟩
  · rw [hrun]
    rfl
  · intro m hm
    rw [hrun]
    simp only [liveRemovalEffects] at hm
    simp only [hm]
  · rw [hrun]
    intro hcontra
    have h2 := congrArg Prod.snd hcontra
    simp at h2
  · intro d hd
    rw [hrun]
    simp only [liveRemovalEffects] at hd
    simp only [hd]
  · rw [hrun]
    simp only [liveRemovalEffects]
    intro hok
    cases hresp : W.removeBgResponse (t ++ [.invoke .removeBackground,
        .removeBgPost (js "https://api.remove.bg/v1.0/removebg") key imageBuffer filename]) with
    | error m =>
      rw [hresp] at hok
      cases hok
    | ok d =>
      rw [hresp] at hok
      have hd : d = imageBuffer := by simpa using hok
      rw [hd]

theorem removeBackground_failure_is_surfaced_witness :
    ((RemoveBgService.constructor allCredentials).removeBackground rejectingWorld [255, 216, 255]
          (js "photo.jpg") []).1 =
        .error (mkError (js "Background removal failed: Network Error")) ∧
      ((RemoveBgService.constructor allCredentials).removeBackground answeringWorld
          [255, 216, 255] (js "photo.jpg") []).1 = .ok [137, 80, 78, 71] :=
  ⟨(removeBackground_failure_is_surfaced rejectingWorld allCredentials [255, 216, 255]
      (js "photo.jpg") [] (js "rbg-key") rfl (by decide) (by decide)).2.1 (js "Network Error") rfl,
    (removeBackground_failure_is_surfaced answeringWorld allCredentials [255, 216, 255]
      (js "photo.jpg") [] (js "rbg-key") rfl (by decide) (by decide)).2.2.2.1
      [137, 80, 78, 71] rfl⟩

/-! ## Claims about the generation stage -/

/-- C3: for every pair of generation credentials, the effects of
`generateBackground` are those of DALL-E when the OpenAI credential is usable
(set, not empty, not its placeholder), otherwise those of Stability AI when
the Stability credential is usable, otherwise those of the simulation; so
with both credentials usable Stability is not called.  A credential equal to
its placeholder gives the same run as an absent one. -/
theorem generateBackground_first_usable_wins (W : World) (env : Env) (img : Buffer)
    (prompt : JSString) (t : Trace) :
    (((AiBackgroundService.constructor env).generateBackground W img prompt t).2 =
        if usable (js "your_openai_api_key_here") env.OPENAI_API_KEY then
          t ++ dalleEffects (keyText env.OPENAI_API_KEY) prompt
        else if usable (js "your_stability_ai_key_here") env.STABILITY_AI_API_KEY then
          t ++ stabilityEffects (keyText env.STABILITY_AI_API_KEY) prompt
        else t ++ simulationEffects) ∧
      (∀ key, providerCalls (dalleEffects key prompt) =
        [.dallePost (js "https://api.openai.com/v1/images/generations") (js "Bearer " ++ key)
          (prompt ++ js
            ", professional photography, realistic lighting and shadows, high quality background")]) ∧
      (AiBackgroundService.constructor
            ⟨env.REMOVE_BG_API_KEY, some (js "your_openai_api_key_here"),
              env.STABILITY_AI_API_KEY⟩).generateBackground W img prompt t =
        (AiBackgroundService.constructor
            ⟨env.REMOVE_BG_API_KEY, none, env.STABILITY_AI_API_KEY⟩).generateBackground
          W img prompt t ∧
      (AiBackgroundService.constructor
            ⟨env.REMOVE_BG_API_KEY, env.OPENAI_API_KEY,
              some (js "your_stability_ai_key_here")⟩).generateBackground W img prompt t =
        (AiBackgroundService.constructor
            ⟨env.REMOVE_BG_API_KEY, env.OPENAI_API_KEY, none⟩).generateBackground
          W img prompt t := by
  refine ⟨?_, fun key => rfl, ?_, ?_⟩
  · rw [generateBackground_run]
    simp only [AiBackgroundService.constructor]
    split_ifs
    · rw [generateWithDalle_run]
      simp [dalleEffects, AiBackgroundService.constructor]
    · rw [generateWithStabilityAI_run]
      simp [stabilityEffects, AiBackgroundService.constructor]
    · rw [simulateBackgroundGeneration_run]
      simp [simulationEffects]
  · rw [generateBackground_run, generateBackground_run]
    have h1 : usable (js "your_openai_api_key_here") (some (js "your_openai_api_key_here")) = false :=
      by decide
    have h2 : usable (js "your_openai_api_key_here") none = false := rfl
    simp only [AiBackgroundService.constructor, h1, h2]
    rfl
  · rw [generateBackground_run, generateBackground_run]
    have h1 : usable (js "your_stability_ai_key_here") (some (js "your_stability_ai_key_here")) = false :=
      by decide
    have h2 : usable (js "your_stability_ai_key_here") none = false := rfl
    simp only [AiBackgroundService.constructor, h1, h2]
    by_cases hu : usable (js "your_openai_api_key_here") env.OPENAI_API_KEY = true
    · simp only [hu, if_true]
      rw [generateWithDalle_run, generateWithDalle_run]
    · simp only [hu, if_false, Bool.false_eq_true]
      rw [simulateBackgroundGeneration_run, simulateBackgroundGeneration_run]

/-- C4: for every credential configuration and prompt, a call of
`generateBackground` makes at most one provider call; if the OpenAI
credential is usable and the DALL-E call fails with cause `m`, or if only the
Stability credential is usable and its call fails with cause `m`, the result
is the error `AI background generation failed: ` followed by `m`, and the run
ends after that one call: no other provider and no simulation is entered. -/
theorem generateBackground_single_attempt (W : World) (env : Env) (img : Buffer)
    (prompt : JSString) (t : Trace) :
    (∃ d, ((AiBackgroundService.constructor env).generateBackground W img prompt t).2 = t ++ d ∧
        (providerCalls d).length ≤ 1) ∧
      (∀ m, usable (js "your_openai_api_key_here") env.OPENAI_API_KEY = true →
        W.dalleResponse (t ++ dalleEffects (keyText env.OPENAI_API_KEY) prompt) = .error m →
        (AiBackgroundService.constructor env).generateBackground W img prompt t =
          (.error (mkError (js "AI background generation failed: " ++ m)),
            t ++ dalleEffects (keyText env.OPENAI_API_KEY) prompt)) ∧
      (∀ m, usable (js "your_openai_api_key_here") env.OPENAI_API_KEY = false →
        usable (js "your_stability_ai_key_here") env.STABILITY_AI_API_KEY = true →
        W.stabilityResponse (t ++ stabilityEffects (keyText env.STABILITY_AI_API_KEY) prompt) =
          .error m →
        (AiBackgroundService.constructor env).generateBackground W img prompt t =
          (.error (mkError (js "AI background generation failed: " ++ m)),
            t ++ stabilityEffects (keyText env.STABILITY_AI_API_KEY) prompt)) := by
  refine ⟨?_, ?_, ?_⟩
  · rw [generateBackground_run]
    split_ifs
    · rw [generateWithDalle_run]
      exact ⟨dalleEffects (keyText env.OPENAI_API_KEY) prompt,
        by simp [dalleEffects, AiBackgroundService.constructor], by simp [providerCalls, dalleEffects]⟩
    · rw [generateWithStabilityAI_run]
      exact ⟨stabilityEffects (keyText env.STABILITY_AI_API_KEY) prompt,
        by simp [stabilityEffects, AiBackgroundService.constructor],
        by simp [providerCalls, stabilityEffects]⟩
    · rw [simulateBackgroundGeneration_run]
      exact ⟨simulationEffects, by simp [simulationEffects],
        by simp [providerCalls, simulationEffects]⟩
  · intro m hu hm
    have hu2 : usable (js "your_openai_api_key_here") (AiBackgroundService.constructor env).openaiKey =
        true := hu
    rw [generateBackground_run, if_pos hu2, generateWithDalle_run]
    simp only [dalleEffects, AiBackgroundService.constructor, List.append_assoc, List.singleton_append,
      List.cons_append, List.nil_append] at hm ⊢
    rw [hm]
  · intro m hu hs hm
    have hu2 : ¬ usable (js "your_openai_api_key_here") (AiBackgroundService.constructor env).openaiKey =
        true := by
      simp only [AiBackgroundService.constructor, hu]
      decide
    have hs2 : usable (js "your_stability_ai_key_here")
        (AiBackgroundService.constructor env).stabilityKey = true := hs
    rw [generateBackground_run, if_neg hu2, if_pos hs2, generateWithStabilityAI_run]
    simp only [stabilityEffects, AiBackgroundService.constructor, List.append_assoc,
      List.singleton_append, List.cons_append, List.nil_append] at hm ⊢
    rw [hm]

theorem generateBackground_single_attempt_witness :
    (AiBackgroundService.constructor allCredentials).generateBackground rejectingWorld [] (js "beach") [] =
      (.error (mkError (js "AI background generation failed: Request failed with status code 401")),
        dalleEffects (js "sk-openai") (js "beach")) :=
  (generateBackground_single_attempt rejectingWorld allCredentials [] (js "beach") []).2.1
    (js "Request failed with status code 401") (by decide) rfl

/-- C2, as stated, fails: with no credential and the prompt consisting of one
unpaired lead surrogate, `generateBackground` throws the `URIError` of
`encodeURIComponent` and returns no URL. -/
theorem generateBackground_simulation_throws_on_lone_surrogate :
    (AiBackgroundService.constructor noCredentials).generateBackground rejectingWorld [] [0xD83D] [] =
      (.error uriError, simulationEffects) := rfl

/-- C2, amended: for every prompt without unpaired surrogates and every value
of `Math.random()`, when neither generation credential is usable,
`generateBackground` returns the placeholder URL built from `colors[i]` and
`encodeURIComponent(prompt)`, where the index `i = Math.floor(r * 5)` is below
5, the colour is one of the five fixed colours, and every index below 5 is
taken for some `r` in `[0, 1)`. -/
theorem generateBackground_simulation_url (W : World) (env : Env) (img : Buffer)
    (prompt : JSString) (t : Trace)
    (ho : usable (js "your_openai_api_key_here") env.OPENAI_API_KEY = false)
    (hs : usable (js "your_stability_ai_key_here") env.STABILITY_AI_API_KEY = false)
    (hw : isWellFormed prompt = true) :
    (∃ escaped, encodeURIComponent prompt = .ok escaped ∧
        (AiBackgroundService.constructor env).generateBackground W img prompt t =
          (.ok (js "https://via.placeholder.com/1024x1024/" ++
              colorAt (floorMul (W.random (t ++ simulationEffects)) 5) ++
              js "/FFFFFF?text=" ++ escaped),
            t ++ simulationEffects)) ∧
      floorMul (W.random (t ++ simulationEffects)) 5 < 5 ∧
      colorAt (floorMul (W.random (t ++ simulationEffects)) 5) ∈
        [js "4A90E2", js "50E3C2", js "B8E986", js "F5A623", js "D0021B"] ∧
      (∀ i, i < 5 → ∃ r : UnitDouble, floorMul r 5 = i) := by
  refine ⟨?_, floorMul_five_lt _, colorAt_mem _ (floorMul_five_lt _), ?_⟩
  · obtain ⟨escaped, he⟩ := (encodeURIComponent_ok_iff prompt).mpr hw
    refine ⟨escaped, he, ?_⟩
    have ho2 : ¬ usable (js "your_openai_api_key_here") (AiBackgroundService.constructor env).openaiKey =
        true := by
      simp only [AiBackgroundService.constructor, ho]
      decide
    have hs2 : ¬ usable (js "your_stability_ai_key_here")
        (AiBackgroundService.constructor env).stabilityKey = true := by
      simp only [AiBackgroundService.constructor, hs]
      decide
    rw [generateBackground_run, if_neg ho2, if_neg hs2, simulateBackgroundGeneration_run, he]
    simp [simulationEffects, colors]
  · intro i hi
    interval_cases i
    · exact ⟨⟨0, 1, by decide, by decide, by decide⟩, by decide⟩
    · exact ⟨⟨1, 2, by decide, by decide, by decide⟩, by decide⟩
    · exact ⟨⟨1, 1, by decide, by decide, by decide⟩, by decide⟩
    · exact ⟨⟨3, 2, by decide, by decide, by decide⟩, by decide⟩
    · exact ⟨⟨7, 3, by decide, by decide, by decide⟩, by decide⟩

theorem generateBackground_simulation_url_witness :
    (AiBackgroundService.constructor noCredentials).generateBackground rejectingWorld []
        (js "beach sunset") [] =
      (.ok (js "https://via.placeholder.com/1024x1024/B8E986/FFFFFF?text=beach%20sunset"),
        simulationEffects) := by
  obtain ⟨escaped, he, hrun⟩ :=
    (generateBackground_simulation_url rejectingWorld noCredentials [] (js "beach sunset") []
      rfl rfl (by decide)).1
  have h2 : escaped = js "beach%20sunset" := by
    have h3 : encodeURIComponent (js "beach sunset") = .ok (js "beach%20sunset") := rfl
    rw [h3] at he
    exact (Except.ok.inj he).symm
  rw [hrun, h2]
  rfl

/-- C8, as stated, fails: on the prompt consisting of one unpaired trail
surrogate the simulated generation throws a `URIError`. -/
theorem simulateBackgroundGeneration_throws_on_lone_surrogate :
    ((AiBackgroundService.constructor noCredentials).simulateBackgroundGeneration rejectingWorld
        [0xDC00] []).1 = .error uriError ∧
      isWellFormed [0xDC00] = false := ⟨rfl, rfl⟩

/-- C8, amended: for every prompt without unpaired surrogates, whatever the
world answers, `simulateBackgroundGeneration` returns a string that starts
with the placeholder address, and so does `generateBackground` when no
generation credential is usable; neither raises an error. -/
theorem simulateBackgroundGeneration_never_fails (W : World) (self : AiBackgroundService)
    (prompt : JSString) (t : Trace) (hw : isWellFormed prompt = true) :
    (∃ rest, (self.simulateBackgroundGeneration W prompt t).1 =
        .ok (js "https://via.placeholder.com/1024x1024/" ++ rest)) ∧
      (usable (js "your_openai_api_key_here") self.openaiKey = false →
        usable (js "your_stability_ai_key_here") self.stabilityKey = false →
        ∀ img, ∃ rest, (self.generateBackground W img prompt t).1 =
          .ok (js "https://via.placeholder.com/1024x1024/" ++ rest)) := by
  obtain ⟨escaped, he⟩ := (encodeURIComponent_ok_iff prompt).mpr hw
  refine ⟨?_, ?_⟩
  · rw [simulateBackgroundGeneration_run, he]
    simp only [List.append_assoc]
    exact ⟨_, rfl⟩
  · intro ho hs img
    have ho2 : ¬ usable (js "your_openai_api_key_here") self.openaiKey = true := by
      simp only [ho]
      decide
    have hs2 : ¬ usable (js "your_stability_ai_key_here") self.stabilityKey = true := by
      simp only [hs]
      decide
    rw [generateBackground_run, if_neg ho2, if_neg hs2, simulateBackgroundGeneration_run, he]
    simp only [List.append_assoc]
    exact ⟨_, rfl⟩

theorem simulateBackgroundGeneration_never_fails_witness :
    isWellFormed (js "beach sunset") = true ∧
      ∃ rest, ((AiBackgroundService.constructor noCredentials).simulateBackgroundGeneration rejectingWorld
        (js "beach sunset") []).1 = .ok (js "https://via.placeholder.com/1024x1024/" ++ rest) :=
  ⟨by decide,
    (simulateBackgroundGeneration_never_fails rejectingWorld (AiBackgroundService.constructor noCredentials)
      (js "beach sunset") [] (by decide)).1⟩

/-! ## Claims about the pipeline and the routes -/

theorem stageInvocations_append (a b : Trace) :
    stageInvocations (a ++ b) = stageInvocations a ++ stageInvocations b := by
  simp [stageInvocations]

/-- A removal enters the removal stage once and no other stage. -/
theorem removeBackground_stage (W : World) (self : RemoveBgService) (imageBuffer : Buffer)
    (filename : JSString) (t : Trace) :
    ∃ d, (self.removeBackground W imageBuffer filename t).2 = t ++ d ∧
      stageInvocations d = [.removeBackground] := by
  cases h : usable (js "your_remove_bg_api_key_here") self.apiKey with
  | false =>
    rw [removeBackground_simulated W self imageBuffer filename t h]
    exact ⟨_, rfl, rfl⟩
  | true =>
    obtain ⟨key, hk, h1, h2⟩ := (usable_eq_true _ _).mp h
    rw [removeBackground_live W self imageBuffer filename t key hk h1 h2]
    exact ⟨_, rfl, rfl⟩

/-- A generation enters the generation stage once and no other stage. -/
theorem generateBackground_stage (W : World) (self : AiBackgroundService) (img : Buffer)
    (prompt : JSString) (t : Trace) :
    ∃ d, (self.generateBackground W img prompt t).2 = t ++ d ∧
      stageInvocations d = [.generateBackground] := by
  rw [generateBackground_run]
  split_ifs
  · rw [generateWithDalle_run]
    exact ⟨_, List.append_assoc _ _ _, rfl⟩
  · rw [generateWithStabilityAI_run]
    exact ⟨_, List.append_assoc _ _ _, rfl⟩
  · rw [simulateBackgroundGeneration_run]
    exact ⟨_, List.append_assoc _ _ _, rfl⟩

/-- One step of `processImage`: its outcome in terms of the outcomes of the two stages. -/
theorem processImage_run (W : World) (env : Env) (file : File) (prompt : JSString) (t : Trace) :
    processImage W env file prompt t =
      match (removeBgService env).removeBackground W file.buffer file.originalname
          (t ++ [.invoke .processImage, .dateNow]) with
      | (.error e, t2) => (.error (mkError (js "Processing failed: " ++ e.message)), t2)
      | (.ok noBg, t2) =>
        match (aiBackgroundService env).generateBackground W noBg prompt t2 with
        | (.error e, t3) => (.error (mkError (js "Processing failed: " ++ e.message)), t3)
        | (.ok url, t3) =>
          (.ok ⟨js "Original image processed (" ++ natToString file.size ++ js " bytes)", url,
              prompt,
              intToString (W.now (t3 ++ [.dateNow]) - W.now (t ++ [.invoke .processImage, .dateNow]))
                ++ js "ms"⟩,
            t3 ++ [.dateNow]) := by
  simp only [processImage, bind_eq, M.bind, M.perform, enter, M.tryCatch, pure_eq, M.pure, M.throw,
    List.append_assoc, List.singleton_append]
  generalize (removeBgService env).removeBackground W file.buffer file.originalname
      (t ++ [.invoke .processImage, .dateNow]) = rm
  rcases rm with ⟨r1, t2⟩
  cases r1 with
  | error e => rfl
  | ok noBg =>
    simp only
    generalize (aiBackgroundService env).generateBackground W noBg prompt t2 = gen
    rcases gen with ⟨r2, t3⟩
    cases r2 with
    | error e => rfl
    | ok url => rfl

/-- C6: `processImage` fails exactly when the removal stage fails or, the
removal having succeeded, the generation stage fails; its error is then
`Processing failed: ` followed by the message of the failing stage, and no
result is returned.  When removal fails the run ends with the removal's
effects, so generation is not entered; in every run the stage entries are
one removal, followed by at most one generation. -/
theorem processImage_fails_iff_a_stage_fails (W : World) (env : Env) (file : File)
    (prompt : JSString) (t : Trace) :
    match (removeBgService env).removeBackground W file.buffer file.originalname
        (t ++ [.invoke .processImage, .dateNow]) with
    | (.error e, t2) =>
      processImage W env file prompt t =
          (.error (mkError (js "Processing failed: " ++ e.message)), t2) ∧
        stageInvocations (t2.drop t.length) = [Method.removeBackground]
    | (.ok noBg, t2) =>
      match (aiBackgroundService env).generateBackground W noBg prompt t2 with
      | (.error e, t3) =>
        processImage W env file prompt t =
            (.error (mkError (js "Processing failed: " ++ e.message)), t3) ∧
          stageInvocations (t3.drop t.length) = [Method.removeBackground, Method.generateBackground]
      | (.ok url, t3) =>
        (∃ r, processImage W env file prompt t = (.ok r, t3 ++ [.dateNow]) ∧
            r.processed = url) ∧
          stageInvocations ((t3 ++ [Effect.dateNow]).drop t.length) =
            [Method.removeBackground, Method.generateBackground] := by
  rw [processImage_run]
  obtain ⟨d, hd, hsd⟩ := removeBackground_stage W (removeBgService env) file.buffer
    file.originalname (t ++ [.invoke .processImage, .dateNow])
  generalize (removeBgService env).removeBackground W file.buffer file.originalname
      (t ++ [.invoke .processImage, .dateNow]) = rm at hd ⊢
  rcases rm with ⟨r1, t2⟩
  simp only at hd
  subst hd
  have hdrop : ∀ x : Trace, (t ++ [Effect.invoke .processImage, Effect.dateNow] ++ d ++ x).drop t.length =
      [.invoke .processImage, .dateNow] ++ d ++ x := by
    intro x
    simp only [List.append_assoc]
    exact List.drop_left _ _
  cases r1 with
  | error e =>
    refine ⟨rfl, ?_⟩
    have h := hdrop []
    simp only [List.append_nil] at h
    rw [h, stageInvocations_append, hsd]
    rfl
  | ok noBg =>
    obtain ⟨d2, hd2, hsd2⟩ := generateBackground_stage W (aiBackgroundService env) noBg prompt
      (t ++ [.invoke .processImage, .dateNow] ++ d)
    simp only
    generalize (aiBackgroundService env).generateBackground W noBg prompt
      (t ++ [.invoke .processImage, .dateNow] ++ d) = gen at hd2 ⊢
    rcases gen with ⟨r2, t3⟩
    simp only at hd2
    subst hd2
    cases r2 with
    | error e =>
      refine ⟨rfl, ?_⟩
      rw [hdrop d2, stageInvocations_append, stageInvocations_append, hsd, hsd2]
      rfl
    | ok url =>
      refine ⟨⟨_, rfl, rfl⟩, ?_⟩
      rw [List.append_assoc _ d2, hdrop, stageInvocations_append, stageInvocations_append,
        stageInvocations_append, hsd, hsd2]
      rfl

/-- C9, as stated, fails: a `multipart/form-data` request without a boundary
carries no file, yet multer rejects it before the handler runs and both
routes answer status 500 with the error page of Express, not status 400. -/
theorem upload_without_boundary_is_answered_500 :
    Incoming.multipartWithoutBoundary.carriesFile = false ∧
      postApiUpload rejectingWorld allCredentials .multipartWithoutBoundary [] =
        (.ok ⟨500, .html (js "<pre>Multipart: Boundary not found</pre>")⟩, []) ∧
      postApiTestUpload rejectingWorld .multipartWithoutBoundary [] =
        (.ok ⟨500, .html (js "<pre>Multipart: Boundary not found</pre>")⟩, []) :=
  ⟨rfl, rfl, rfl⟩

/-- C9, amended: for every request to `POST /api/upload` or
`POST /api/test-upload` that multer passes on to the handler without a file
(`req.file` undefined), the response is status 400 with the body
`{ error: 'No file uploaded' }` and the trace is left as it was: neither
stage, nor `processImage`, nor `simulateProcessing` is entered.  Every
request that is not multipart is such a request.  A request multer rejects
does not reach the handler: it is answered by the default error handler, and
the trace is left as it was too. -/
theorem upload_without_file_is_rejected (W : World) (env : Env) (incoming : Incoming)
    (t : Trace) :
    (∀ req, uploadSingle W incoming = .passed req → req.file = none →
        postApiUpload W env incoming t =
            (.ok ⟨400, .json (.obj [(js "error", .str (js "No file uploaded"))])⟩, t) ∧
          postApiTestUpload W incoming t =
            (.ok ⟨400, .json (.obj [(js "error", .str (js "No file uploaded"))])⟩, t)) ∧
      (∀ prompt, incoming = .notMultipart prompt →
        postApiUpload W env incoming t =
            (.ok ⟨400, .json (.obj [(js "error", .str (js "No file uploaded"))])⟩, t) ∧
          postApiTestUpload W incoming t =
            (.ok ⟨400, .json (.obj [(js "error", .str (js "No file uploaded"))])⟩, t)) ∧
      (∀ err, uploadSingle W incoming = .rejected err →
        postApiUpload W env incoming t = (.ok (defaultErrorHandler W err), t) ∧
          postApiTestUpload W incoming t = (.ok (defaultErrorHandler W err), t)) := by
  refine ⟨?_, ?_, ?_⟩
  · intro req hpass hfile
    obtain ⟨file, prompt⟩ := req
    simp only at hfile
    subst hfile
    simp only [postApiUpload, postApiTestUpload, hpass]
    exact ⟨rfl, rfl⟩
  · intro prompt hin
    subst hin
    exact ⟨rfl, rfl⟩
  · intro err hrej
    simp only [postApiUpload, postApiTestUpload, hrej]
    exact ⟨rfl, rfl⟩

theorem upload_without_file_is_rejected_witness :
    uploadSingle rejectingWorld (.multipart (some (js "beach sunset")) []) =
        .passed ⟨none, some (js "beach sunset")⟩ ∧
      postApiUpload rejectingWorld allCredentials (.multipart (some (js "beach sunset")) []) [] =
        (.ok ⟨400, .json (.obj [(js "error", .str (js "No file uploaded"))])⟩, []) ∧
      postApiTestUpload rejectingWorld (.multipart (some (js "beach sunset")) []) [] =
        (.ok ⟨400, .json (.obj [(js "error", .str (js "No file uploaded"))])⟩, []) :=
  ⟨rfl,
    (upload_without_file_is_rejected rejectingWorld allCredentials
      (.multipart (some (js "beach sunset")) []) []).1 ⟨none, some (js "beach sunset")⟩ rfl rfl⟩

/-- The digits produced for `n` are decimal digits and they write `n`. -/
theorem decimalDigitsRev_value (fuel : Nat) :
    ∀ n, n < fuel → decimalValueRev (decimalDigitsRev fuel n) = n ∧
      ∀ d ∈ decimalDigitsRev fuel n, 48 ≤ d ∧ d ≤ 57 := by
  induction fuel with
  | zero => intro n hn; omega
  | succ f ih =>
    intro n hn
    simp only [decimalDigitsRev]
    split_ifs with hlt
    · refine ⟨by simp [decimalValueRev], ?_⟩
      intro d hd
      simp only [List.mem_singleton] at hd
      omega
    · obtain ⟨hv, hd⟩ := ih (n / 10) (by omega)
      refine ⟨?_, ?_⟩
      · simp only [decimalValueRev, hv]
        omega
      · intro d hmem
        rcases List.mem_cons.mp hmem with h | h
        · omega
        · exact hd d h

/-- The string `natToString n` read back as a decimal numeral is `n`. -/
theorem natToString_value (n : Nat) : decimalValueRev (natToString n).reverse = n := by
  simp only [natToString, List.reverse_reverse]
  exact (decimalDigitsRev_value (n + 1) n (by omega)).1

theorem decimalDigitsRev_ne_nil (fuel n : Nat) : decimalDigitsRev (fuel + 1) n ≠ [] := by
  simp only [decimalDigitsRev]
  split_ifs <;> simp

/-- The rendering of a number is the single digit zero only for zero. -/
theorem natToString_eq_zero (n : Nat) (h : natToString n = [48]) : n = 0 := by
  have h2 : decimalDigitsRev (n + 1) n = [48] := by
    have := congrArg List.reverse h
    simpa [natToString] using this
  simp only [decimalDigitsRev] at h2
  split_ifs at h2 with hlt
  · simpa using h2
  · exfalso
    have h3 : decimalDigitsRev n (n / 10) = [] := by
      simpa using (List.cons.inj h2).2
    obtain ⟨k, rfl⟩ : ∃ k, n = k + 1 := ⟨n - 1, by omega⟩
    exact decimalDigitsRev_ne_nil k _ h3

/-- The run of `processImage` when no credential is usable and the prompt can be escaped. -/
theorem processImage_simulated_run (W : World) (env : Env) (file : File) (prompt : JSString)
    (t : Trace)
    (hr : usable (js "your_remove_bg_api_key_here") env.REMOVE_BG_API_KEY = false)
    (ho : usable (js "your_openai_api_key_here") env.OPENAI_API_KEY = false)
    (hs : usable (js "your_stability_ai_key_here") env.STABILITY_AI_API_KEY = false) :
    processImage W env file prompt t =
      match encodeURIComponent prompt with
      | .error e =>
        (.error (mkError (js "Processing failed: " ++ e.message)),
          t ++ simulatedPipelineEffects.dropLast)
      | .ok escaped =>
        (.ok ⟨js "Original image processed (" ++ natToString file.size ++ js " bytes)",
            js "https://via.placeholder.com/1024x1024/" ++
              colorAt (floorMul (W.random (t ++ simulatedPipelineEffects.dropLast)) 5) ++
              js "/FFFFFF?text=" ++ escaped,
            prompt,
            intToString (W.now (t ++ simulatedPipelineEffects) -
              W.now (t ++ [.invoke .processImage, .dateNow])) ++ js "ms"⟩,
          t ++ simulatedPipelineEffects) := by
  have ho2 : ¬ usable (js "your_openai_api_key_here") (aiBackgroundService env).openaiKey =
      true := by
    simp only [aiBackgroundService, AiBackgroundService.constructor, ho]
    decide
  have hs2 : ¬ usable (js "your_stability_ai_key_here") (aiBackgroundService env).stabilityKey =
      true := by
    simp only [aiBackgroundService, AiBackgroundService.constructor, hs]
    decide
  rw [processImage_run, removeBackground_simulated W (removeBgService env) _ _ _ hr]
  simp only
  rw [generateBackground_run, if_neg ho2, if_neg hs2, simulateBackgroundGeneration_run]
  cases encodeURIComponent prompt with
  | error e => simp [simulatedPipelineEffects]
  | ok escaped => simp [simulatedPipelineEffects, colors]

set_option maxRecDepth 8000 in
/-- C10, as stated, fails: with no credential, on `photo.jpg` (50000 bytes)
and the prompt `beach sunset`, when both clock reads fall in the same
millisecond the run succeeds with `processingTime` equal to `0ms`, which is
not a positive count followed by `ms`. -/
theorem processImage_elapsed_time_can_be_zero :
    (processImage sameMillisecondWorld noCredentials photo (js "beach sunset") []).1 =
        .ok ⟨js "Original image processed (50000 bytes)",
          js "https://via.placeholder.com/1024x1024/B8E986/FFFFFF?text=beach%20sunset",
          js "beach sunset", js "0ms"⟩ ∧
      ¬ ∃ n : Nat, 0 < n ∧ js "0ms" = natToString n ++ js "ms" := by
  refine ⟨rfl, ?_⟩
  rintro ⟨n, hpos, hn⟩
  have h2 : natToString n = [48] := by
    have h3 : js "0ms" = [48] ++ js "ms" := rfl
    rw [h3] at hn
    exact (List.append_cancel_right hn).symm
  have := natToString_eq_zero n h2
  omega

/-- C10, amended: for every successful run of `processImage` with no usable
credential, the result's `prompt` is the submitted prompt, `processed` is the
placeholder address with one of the five colours and the escaped prompt, and
`processingTime` is the decimal rendering of the second clock reading minus
the first, followed by `ms`; this is a non-negative count (possibly zero)
whenever the clock did not run backwards. -/
theorem processImage_result_without_credentials (W : World) (env : Env) (file : File)
    (prompt : JSString) (t t2 : Trace) (r : ProcessingResult)
    (hr : usable (js "your_remove_bg_api_key_here") env.REMOVE_BG_API_KEY = false)
    (ho : usable (js "your_openai_api_key_here") env.OPENAI_API_KEY = false)
    (hs : usable (js "your_stability_ai_key_here") env.STABILITY_AI_API_KEY = false)
    (hrun : processImage W env file prompt t = (.ok r, t2)) :
    r.prompt = prompt ∧
      (∃ c escaped, c ∈ [js "4A90E2", js "50E3C2", js "B8E986", js "F5A623", js "D0021B"] ∧
        encodeURIComponent prompt = .ok escaped ∧
        r.processed = js "https://via.placeholder.com/1024x1024/" ++ c ++
          js "/FFFFFF?text=" ++ escaped) ∧
      r.processingTime =
        intToString (W.now (t ++ simulatedPipelineEffects) -
          W.now (t ++ [.invoke .processImage, .dateNow])) ++ js "ms" ∧
      (W.now (t ++ [.invoke .processImage, .dateNow]) ≤ W.now (t ++ simulatedPipelineEffects) →
        ∃ n : Nat, r.processingTime = natToString n ++ js "ms") := by
  rw [processImage_simulated_run W env file prompt t hr ho hs] at hrun
  cases he : encodeURIComponent prompt with
  | error e =>
    rw [he] at hrun
    simp at hrun
  | ok escaped =>
    rw [he] at hrun
    simp only [Prod.mk.injEq, Except.ok.injEq] at hrun
    obtain ⟨hres, _⟩ := hrun
    subst hres
    refine ⟨rfl, ⟨_, escaped, colorAt_mem _ (floorMul_five_lt _), rfl, rfl⟩, rfl, ?_⟩
    intro hle
    obtain ⟨n, hn⟩ := Int.eq_ofNat_of_zero_le (sub_nonneg.mpr hle)
    refine ⟨n, ?_⟩
    simp only [hn]
    rfl

set_option maxRecDepth 8000 in
theorem processImage_result_without_credentials_witness :
    ∃ r t2, processImage rejectingWorld noCredentials photo (js "beach sunset") [] = (.ok r, t2) ∧
      r.prompt = js "beach sunset" ∧
      r.processed =
        js "https://via.placeholder.com/1024x1024/B8E986/FFFFFF?text=beach%20sunset" ∧
      r.processingTime = js "6ms" :=
  ⟨_, _, rfl,
    (processImage_result_without_credentials rejectingWorld noCredentials photo
      (js "beach sunset") [] _ _ rfl rfl rfl rfl).1, rfl, rfl⟩

/-! ## The socket handler -/

/-- C7, at the failing input: when the payload of `camera-upload` is
`undefined`, the handler emits `started` and `background_removed`, and the
third callback throws a `TypeError` on `data.prompt` before it emits
`processing-complete`; the exception is uncaught. -/
theorem cameraUpload_undefined_payload_stops_after_two_events :
    cameraUploadRun .undefined =
      ([startedEvent, backgroundRemovedEvent],
        some (nullishReadError (js "undefined") (js "prompt"))) := rfl

/-- For every payload on which `data.prompt` can be read (anything but
`undefined` and `null`), the events of one upload are `started`,
`background_removed` and `completed`, in this order, each once, the last
one carrying the prompt of the payload. -/
theorem cameraUpload_three_events (data : JsVal) (prompt : JsVal)
    (h : data.getProp (js "prompt") = .ok prompt) :
    cameraUploadRun data =
      ([startedEvent, backgroundRemovedEvent, completedEvent prompt], none) := by
  simp only [cameraUploadRun, onCameraUpload, fireOrder, List.foldl, insertTimer, runTimers, h]
  rfl

theorem cameraUpload_three_events_witness :
    cameraUploadRun (.obj [(js "prompt", .str (js "beach sunset"))]) =
      ([startedEvent, backgroundRemovedEvent, completedEvent (.str (js "beach sunset"))], none) :=
  cameraUpload_three_events _ _ rfl

end BackgroundRemover
